import Mathlib

/-!
Shallow embedding of the API request / retry / error-classification client
of the Blue-Chain page script (`apiRequest`, `categorizeAPIError`,
`shouldRetry`, `RETRY_CONFIG`), together with theorems settling the
specification claims about it.

The HTTP transport (`fetch`) is an external collaborator; it is modelled as
a function from the attempt index to a `FetchOutcome`: either a response
(with status, content-type header, and the values its `.json()` / `.text()`
methods would produce) or a thrown value.  A real browser `fetch` rejects
with a plain `TypeError` when the network is unreachable; such a thrown
value is none of the script's own error classes and is modelled by the
`rawError` variant below.

The orchestrator is instrumented with a trace recording the number of
transport calls, the backoff delays awaited, and each consultation of the
retry policy `shouldRetry` (the pair of the error passed and the attempt
index), so that the claims about call counts, delays and policy
consultations can be stated.  The returned outcome component reproduces the
source behaviour exactly.
-/

set_option autoImplicit false

namespace BlueChain

/-- A decoded response body: a raw text body, a JSON object (of which only
the `message` and `error` fields are relevant to the client, as
`data?.message` / `data?.error`), or JSON `null`. -/
inductive Decoded where
  | text (s : String)
  | obj (message : Option String) (errField : Option String)
  | nullV
  deriving DecidableEq

/-- `data?.message` : the `message` field of the decoded body, when the body
is a JSON object carrying one. -/
def Decoded.messageField : Decoded → Option String
  | .obj m _ => m
  | _ => none

/-- `data?.error` : the `error` field of the decoded body, when the body is
a JSON object carrying one. -/
def Decoded.errorField : Decoded → Option String
  | .obj _ e => e
  | _ => none

/-- JavaScript `a || b` on a possibly-absent string `a`: `b` is used when
`a` is `undefined` or falsy (the empty string is falsy). -/
def jsOrStr (a : Option String) (b : String) : String :=
  match a with
  | some s => if s = "" then b else s
  | none => b

/-- The error values that can be caught by the `apiRequest` loop, mirroring
the script's class hierarchy.  `apiError`, `authenticationError`,
`validationError` and `serverError` are the `APIError` family (each
constructor fixes exactly the fields the corresponding JS constructor
fixes: `AuthenticationError` has status 401, `ValidationError` status 400);
`networkError` is the script's `NetworkError` class; `rawError` is any
other thrown value, such as the `TypeError` a failing `fetch` rejects
with. -/
inductive JsError where
  | apiError (msg : String) (status : Nat) (code : String) (data : Option Decoded)
  | authenticationError (msg : String)
  | validationError (msg : String) (data : Option Decoded)
  | serverError (msg : String) (status : Nat)
  | networkError (msg : String)
  | rawError (msg : String)
  deriving DecidableEq

/-- `error instanceof APIError` (true for the whole `APIError` family). -/
def JsError.isAPIError : JsError → Bool
  | .apiError .. => true
  | .authenticationError .. => true
  | .validationError .. => true
  | .serverError .. => true
  | _ => false

/-- `error instanceof AuthenticationError`. -/
def JsError.isAuthenticationError : JsError → Bool
  | .authenticationError .. => true
  | _ => false

/-- `error instanceof ValidationError`. -/
def JsError.isValidationError : JsError → Bool
  | .validationError .. => true
  | _ => false

/-- `error instanceof NetworkError`. -/
def JsError.isNetworkError : JsError → Bool
  | .networkError .. => true
  | _ => false

/-- `error.status`: defined for the `APIError` family (the
`AuthenticationError` constructor hard-codes 401 and `ValidationError`
hard-codes 400), `undefined` (`none`) for other errors. -/
def JsError.statusOf : JsError → Option Nat
  | .apiError _ s _ _ => some s
  | .authenticationError _ => some 401
  | .validationError _ _ => some 400
  | .serverError _ s => some s
  | _ => none

/-- The retry configuration record. -/
structure RetryConfig where
  maxRetries : Nat
  retryDelay : Nat
  backoffMultiplier : Nat
  retryableStatuses : List Nat
  deriving DecidableEq

/-- `RETRY_CONFIG` from the script. -/
def RETRY_CONFIG : RetryConfig :=
  { maxRetries := 3
    retryDelay := 1000
    backoffMultiplier := 2
    retryableStatuses := [408, 429, 500, 502, 503, 504] }

/-- `categorizeAPIError(status, data)` from the script: the switch over the
status code, with the message computed as
`data?.message || data?.error || "HTTP <status> error"`. -/
def categorizeAPIError (status : Nat) (data : Decoded) : JsError :=
  let message :=
    jsOrStr data.messageField
      (jsOrStr data.errorField ("HTTP " ++ toString status ++ " error"))
  if status = 400 then .validationError message (some data)
  else if status = 401 then .authenticationError message
  else if status = 403 then .apiError message status "FORBIDDEN" (some data)
  else if status = 404 then .apiError message status "NOT_FOUND" (some data)
  else if status = 409 then .apiError message status "CONFLICT" (some data)
  else if status = 422 then .validationError message (some data)
  else if status = 429 then .apiError message status "RATE_LIMITED" (some data)
  else if status = 500 ∨ status = 502 ∨ status = 503 ∨ status = 504 then
    .serverError message status
  else .apiError message status "UNKNOWN_ERROR" (some data)

/-- `shouldRetry(error, attempt)` from the script.  The `attempt` parameter
is declared but never read by the source function. -/
def shouldRetry (e : JsError) (attempt : Nat) : Bool :=
  if e.isAuthenticationError || e.isValidationError then false
  else if e.isNetworkError then true
  else if e.isAPIError &&
      (match e.statusOf with
        | some s => RETRY_CONFIG.retryableStatuses.contains s
        | none => false) then true
  else false

/-- An HTTP response as seen by the client: its status, its `content-type`
header (`none` when the header is absent), and the values its `.json()`
and `.text()` methods would decode to. -/
structure HttpResponse where
  status : Nat
  contentType : Option String
  jsonOf : Decoded
  textOf : String
  deriving DecidableEq

/-- `response.ok`: status in the 2xx range. -/
def HttpResponse.ok (r : HttpResponse) : Bool :=
  200 ≤ r.status && r.status < 300

/-- What one call of the transport primitive does: deliver a response, or
throw before any response is received. -/
inductive FetchOutcome where
  | resp (r : HttpResponse)
  | throwRaw (msg : String)
  deriving DecidableEq

/-- JavaScript `String.prototype.includes`: substring containment. -/
def strIncludes (s pat : String) : Bool :=
  (List.range (s.length + 1)).any
    (fun i => (s.toList.drop i).take pat.length = pat.toList)

/-- `contentType && contentType.includes('application/json')`. -/
def ctIsJson (ct : Option String) : Bool :=
  match ct with
  | some s => strIncludes s "application/json"
  | none => false

/-- The response-decoding step of `apiRequest`: `response.json()` when the
content-type contains `application/json`, `response.text()` otherwise. -/
def decodeBody (r : HttpResponse) : Decoded :=
  if ctIsJson r.contentType then r.jsonOf else .text r.textOf

/-- The final result of the orchestrator: a returned decoded payload or a
thrown error. -/
inductive Outcome where
  | success (d : Decoded)
  | failure (e : JsError)
  deriving DecidableEq

/-- The body of the `try` block of one attempt of `apiRequest`: call
`fetch`; on a response, decode the body and, when the status is not ok,
throw the categorized error, otherwise return the data; a thrown transport
value is caught as-is. -/
def attemptOutcome (tr : Nat → FetchOutcome) (n : Nat) : Outcome :=
  match tr n with
  | .throwRaw m => .failure (.rawError m)
  | .resp r =>
    let data := decodeBody r
    if r.ok then .success data
    else .failure (categorizeAPIError r.status data)

/-- Instrumentation of a run of the orchestrator: number of transport
calls, the backoff delays awaited (in order), and each consultation of
`shouldRetry` (the error and attempt index passed to it, in order). -/
structure Trace where
  calls : Nat
  delays : List Nat
  consults : List (JsError × Nat)
  deriving DecidableEq

/-- The `while (attempt <= RETRY_CONFIG.maxRetries)` loop of `apiRequest`,
with `gas = RETRY_CONFIG.maxRetries + 1 - attempt` making the guard
explicit: `gas = 0` is exactly the guard failing, upon which the source
throws `lastError`.  In the loop body: one transport call; on success the
data is returned; on a caught error, `lastError` is set to it,
`shouldRetry(error, attempt)` is consulted, a false answer breaks out of
the loop (after which `lastError`, i.e. this error, is thrown), and a true
answer awaits `retryDelay * backoffMultiplier ^ attempt` and increments
`attempt`. -/
def apiLoop (tr : Nat → FetchOutcome) :
    Nat → Nat → Option JsError → Trace → Trace × Outcome
  | 0, _, lastError, acc =>
    (acc, .failure (lastError.getD (.rawError "undefined")))
  | gas + 1, attempt, _, acc =>
    let acc1 : Trace := { acc with calls := acc.calls + 1 }
    match attemptOutcome tr attempt with
    | .success data => (acc1, .success data)
    | .failure e =>
      let acc2 : Trace := { acc1 with consults := acc1.consults ++ [(e, attempt)] }
      if shouldRetry e attempt then
        apiLoop tr gas (attempt + 1) (some e)
          { acc2 with
            delays := acc2.delays ++
              [RETRY_CONFIG.retryDelay * RETRY_CONFIG.backoffMultiplier ^ attempt] }
      else (acc2, .failure e)

/-- `apiRequest` (its retry loop over an abstract transport): attempt
counter starts at 0, so the loop guard grants `maxRetries + 1` iterations
of gas. -/
def apiRequest (tr : Nat → FetchOutcome) : Trace × Outcome :=
  apiLoop tr (RETRY_CONFIG.maxRetries + 1) 0 none { calls := 0, delays := [], consults := [] }

/-- The exponential backoff delay used before the retry that follows a
failed attempt `n` (inlined in the source as
`RETRY_CONFIG.retryDelay * Math.pow(RETRY_CONFIG.backoffMultiplier, attempt)`). -/
def delayFor (n : Nat) : Nat :=
  RETRY_CONFIG.retryDelay * RETRY_CONFIG.backoffMultiplier ^ n

/-- A header map, keeping JS object insertion order. -/
abbrev HeaderMap := List (String × String)

/-- JS object spread `{ ...base, ...over }` restricted to string-valued
maps: keys of `base` keep their position (with `over`'s value when
overridden); keys only in `over` are appended. -/
def spreadMerge (base over : HeaderMap) : HeaderMap :=
  base.map (fun p =>
    match List.lookup p.1 over with
    | some v => (p.1, v)
    | none => p) ++
  over.filter (fun q => (List.lookup q.1 base).isNone)

/-- The caller-supplied options object, as far as header construction is
concerned: `none` means the `headers` key is absent from `options`. -/
structure RequestOptions where
  headers : Option HeaderMap
  deriving DecidableEq

/-- The headers of the `config` object built at the top of `apiRequest`:
`config = { headers: { 'Content-Type': 'application/json', ...options.headers }, ...options }`.
The inner object merges the default content type with `options.headers`;
but the outer `...options` spread comes after the `headers:` entry, so
whenever `options` itself has a `headers` key, that key overwrites the
merged object with `options.headers` unchanged. -/
def apiConfigHeaders (options : RequestOptions) : HeaderMap :=
  let inner := spreadMerge [("Content-Type", "application/json")] (options.headers.getD [])
  match options.headers with
  | some h => h
  | none => inner

/-! ### Spec-side definitions (for refinement claims) -/

/-- The retry predicate exactly as the claim words it: retry the Network
errors and the status-coded errors whose status lies in the retryable set;
no other error is retried. -/
def retrySpec (e : JsError) : Bool :=
  e.isNetworkError ||
    (match e.statusOf with
      | some s => RETRY_CONFIG.retryableStatuses.contains s
      | none => false)

/-- The human message exactly as the claim words it: taken from
`body.message`, else from `body.error`, else the synthesized string
`"HTTP <status> error"`. -/
def specMessage (status : Nat) (body : Decoded) : String :=
  ((body.messageField.filter (fun s => s != "")).orElse
    (fun _ => body.errorField.filter (fun s => s != ""))).getD
    ("HTTP " ++ toString status ++ " error")

/-- The classification table exactly as the claim words it: Validation with
payload for 400/422, Authentication for 401, the fixed codes for
403/404/409/429, Server for 500/502/503/504, `UNKNOWN_ERROR` otherwise. -/
def classifySpec (status : Nat) (body : Decoded) : JsError :=
  let msg := specMessage status body
  if status = 400 ∨ status = 422 then .validationError msg (some body)
  else if status = 401 then .authenticationError msg
  else if status = 403 then .apiError msg status "FORBIDDEN" (some body)
  else if status = 404 then .apiError msg status "NOT_FOUND" (some body)
  else if status = 409 then .apiError msg status "CONFLICT" (some body)
  else if status = 429 then .apiError msg status "RATE_LIMITED" (some body)
  else if status = 500 ∨ status = 502 ∨ status = 503 ∨ status = 504 then
    .serverError msg status
  else .apiError msg status "UNKNOWN_ERROR" (some body)

/-! ### Concrete transports used by scenarios and witnesses -/

/-- A transport whose every call throws before a response is received, as a
browser `fetch` does on an unreachable endpoint. -/
def alwaysUnreachable : Nat → FetchOutcome :=
  fun _ => .throwRaw "Failed to fetch"

/-- A transport answering every call with a 401 JSON response. -/
def always401 : Nat → FetchOutcome :=
  fun _ => .resp { status := 401, contentType := some "application/json"
                   jsonOf := .obj (some "Unauthorized") none, textOf := "" }

/-- A transport answering every call with a 503 JSON response. -/
def always503 : Nat → FetchOutcome :=
  fun _ => .resp { status := 503, contentType := some "application/json"
                   jsonOf := .obj none none, textOf := "" }

/-- A transport answering every call with status 200, content-type
`text/plain` and body `"pong"`. -/
def pongTransport : Nat → FetchOutcome :=
  fun _ => .resp { status := 200, contentType := some "text/plain"
                   jsonOf := .nullV, textOf := "pong" }

/-! ### Helper lemmas -/

/-- The message computed by `categorizeAPIError` agrees with the claim's
fallback order. -/
lemma specMessage_eq_jsOrStr (s : Nat) (b : Decoded) :
    specMessage s b =
      jsOrStr b.messageField (jsOrStr b.errorField ("HTTP " ++ toString s ++ " error")) := by
  rcases b with t | ⟨m, e⟩ | _
  · rfl
  · rcases m with _ | m <;> rcases e with _ | e <;>
      simp [specMessage, jsOrStr, Decoded.messageField, Decoded.errorField,
        Option.filter, Option.orElse, Option.getD] <;>
      split_ifs <;> simp_all
  · rfl

/-- Any response status in the retryable set is classified to an error that
`shouldRetry` accepts, at every attempt index. -/
lemma shouldRetry_categorize_retryable (s : Nat) (d : Decoded) (a : Nat)
    (hs : s ∈ RETRY_CONFIG.retryableStatuses) :
    shouldRetry (categorizeAPIError s d) a = true := by
  have : s = 408 ∨ s = 429 ∨ s = 500 ∨ s = 502 ∨ s = 503 ∨ s = 504 := by
    simpa [RETRY_CONFIG] using hs
  rcases this with h | h | h | h | h | h <;> subst h <;> rfl

/-- One unfolding of the retry loop when gas remains. -/
lemma apiLoop_step (tr : Nat → FetchOutcome) (g a : Nat) (le : Option JsError) (acc : Trace) :
    apiLoop tr (g + 1) a le acc =
      match attemptOutcome tr a with
      | .success d => ({ acc with calls := acc.calls + 1 }, .success d)
      | .failure e =>
        if shouldRetry e a then
          apiLoop tr g (a + 1) (some e)
            { acc with
                calls := acc.calls + 1
                consults := acc.consults ++ [(e, a)]
                delays := acc.delays ++
                  [RETRY_CONFIG.retryDelay * RETRY_CONFIG.backoffMultiplier ^ a] }
        else
          ({ acc with
              calls := acc.calls + 1
              consults := acc.consults ++ [(e, a)] }, .failure e) := by
  rw [apiLoop]

/-- The loop's delay trace always extends an `(List.range a).map delayFor`
shape to the same shape (the delay awaited after failed attempt `n` is
`delayFor n`). -/
lemma apiLoop_delays_map (tr : Nat → FetchOutcome) :
    ∀ (g a : Nat) (le : Option JsError) (acc : Trace),
      acc.delays = (List.range a).map delayFor →
      ∃ m, (apiLoop tr g a le acc).1.delays = (List.range m).map delayFor := by
  intro g
  induction g with
  | zero =>
    intro a le acc h
    exact ⟨a, by simpa [apiLoop] using h⟩
  | succ g ih =>
    intro a le acc h
    rw [apiLoop_step]
    rcases hao : attemptOutcome tr a with d | e
    · exact ⟨a, by simpa using h⟩
    · by_cases hsr : shouldRetry e a
      · simp only [hsr, if_true]
        refine ih (a + 1) (some e) _ ?_
        simp [h, List.range_succ, delayFor]
      · exact ⟨a, by simpa [hsr] using h⟩

/-- The loop with no gas left (the `while` guard failing) throws
`lastError`. -/
lemma apiLoop_zero (tr : Nat → FetchOutcome) (a : Nat) (le : Option JsError) (acc : Trace) :
    apiLoop tr 0 a le acc = (acc, .failure (le.getD (.rawError "undefined"))) := rfl

/-! ### Claim theorems -/

/-- Claim C10: the retry decision is independent of the attempt index —
`shouldRetry(e, i) = shouldRetry(e, j)` for every error `e` and all attempt
indices `i`, `j`; the bounding of attempts lives only in the orchestrator's
loop. -/
theorem shouldRetry_ignores_attempt :
    ∀ (e : JsError) (i j : Nat), shouldRetry e i = shouldRetry e j :=
  fun _ _ _ => rfl

/-- Claim C7: `shouldRetry` returns true exactly on Network errors and on
status-coded errors whose status lies in the retryable set
`{408, 429, 500, 502, 503, 504}` (at every attempt index, hence in
particular below `maxRetries`), and false on every other error. -/
theorem shouldRetry_matches_retrySpec :
    ∀ (e : JsError) (a : Nat), shouldRetry e a = retrySpec e := by
  intro e a
  cases e <;>
    simp [shouldRetry, retrySpec, JsError.isAPIError, JsError.isNetworkError,
      JsError.isAuthenticationError, JsError.isValidationError, JsError.statusOf,
      RETRY_CONFIG]

/-- Claim C5: `categorizeAPIError` realizes the claimed classification
table — Validation with payload for 400/422, Authentication for 401, codes
`FORBIDDEN`/`NOT_FOUND`/`CONFLICT`/`RATE_LIMITED` for 403/404/409/429,
Server for 500/502/503/504, `UNKNOWN_ERROR` for any other status — with the
message taken from `body.message`, else `body.error`, else
`"HTTP <status> error"`. -/
theorem categorizeAPIError_matches_table :
    ∀ (s : Nat) (b : Decoded), categorizeAPIError s b = classifySpec s b := by
  intro s b
  by_cases h400 : s = 400
  · simp [h400, categorizeAPIError, classifySpec, specMessage_eq_jsOrStr]
  by_cases h401 : s = 401
  · simp [h400, h401, categorizeAPIError, classifySpec, specMessage_eq_jsOrStr]
  by_cases h403 : s = 403
  · simp [h400, h401, h403, categorizeAPIError, classifySpec, specMessage_eq_jsOrStr]
  by_cases h404 : s = 404
  · simp [h400, h401, h403, h404, categorizeAPIError, classifySpec, specMessage_eq_jsOrStr]
  by_cases h409 : s = 409
  · simp [h400, h401, h403, h404, h409, categorizeAPIError, classifySpec,
      specMessage_eq_jsOrStr]
  by_cases h422 : s = 422
  · simp [h400, h401, h403, h404, h409, h422, categorizeAPIError, classifySpec,
      specMessage_eq_jsOrStr]
  by_cases h429 : s = 429
  · simp [h400, h401, h403, h404, h409, h422, h429, categorizeAPIError, classifySpec,
      specMessage_eq_jsOrStr]
  by_cases h5xx : s = 500 ∨ s = 502 ∨ s = 503 ∨ s = 504
  · rcases h5xx with h | h | h | h <;>
      simp [h, categorizeAPIError, classifySpec, specMessage_eq_jsOrStr]
  · simp [h400, h401, h403, h404, h409, h422, h429, h5xx, categorizeAPIError,
      classifySpec, specMessage_eq_jsOrStr]

/-- Claim C8: the inter-attempt delay is `baseDelay × multiplier^n` — the
delays recorded by any run of the orchestrator are an initial segment of
`delayFor 0, delayFor 1, …`, and with the default configuration
`delayFor` yields 1000 ms, 2000 ms, 4000 ms at n = 0, 1, 2. -/
theorem backoff_delays :
    (∀ n, delayFor n = RETRY_CONFIG.retryDelay * RETRY_CONFIG.backoffMultiplier ^ n) ∧
    (∀ tr, ∃ m, (apiRequest tr).1.delays = (List.range m).map delayFor) ∧
    delayFor 0 = 1000 ∧ delayFor 1 = 2000 ∧ delayFor 2 = 4000 := by
  refine ⟨fun n => rfl, fun tr => ?_, by decide, by decide, by decide⟩
  simpa [apiRequest] using
    apiLoop_delays_map tr (RETRY_CONFIG.maxRetries + 1) 0 none
      { calls := 0, delays := [], consults := [] } (by simp)

/-- Claim C1 (refuted by the code): when the transport throws on every
attempt, the loop catches a value that is none of the script's error
classes — `NetworkError` is defined but never constructed anywhere in the
repository — so `shouldRetry` declines immediately: the orchestrator makes
exactly one transport call, awaits no delay, and rethrows the raw thrown
value instead of a Network-kind error, even though the (unreachable)
`NetworkError` branch of `shouldRetry` would have answered true. -/
theorem unreachable_transport_single_raw_failure :
    (apiRequest alwaysUnreachable).1.calls = 1 ∧
    (apiRequest alwaysUnreachable).1.delays = [] ∧
    (apiRequest alwaysUnreachable).2 = .failure (.rawError "Failed to fetch") ∧
    (∀ m a, shouldRetry (.rawError m) a = false) ∧
    (∀ m a, shouldRetry (.networkError m) a = true) :=
  ⟨by decide, by decide, by decide, fun _ _ => rfl, fun _ _ => rfl⟩

/-- Claim C6: Authentication and Validation errors are never retried at any
attempt count, and an endpoint answering 401 on the first call makes the
orchestrator issue exactly one transport call, await no delay, and fail
with the Authentication error. -/
theorem auth_validation_never_retried :
    (∀ m a, shouldRetry (.authenticationError m) a = false) ∧
    (∀ m d a, shouldRetry (.validationError m d) a = false) ∧
    (apiRequest always401).1.calls = 1 ∧
    (apiRequest always401).1.delays = [] ∧
    (apiRequest always401).2 = .failure (.authenticationError "Unauthorized") :=
  ⟨fun _ _ => rfl, fun _ _ _ => rfl, by decide, by decide, by decide⟩

/-- Claim C9: a successful response is decoded as JSON exactly when its
content-type contains `application/json` and as raw text otherwise; in
particular a 200 response with content-type `text/plain` and body `"pong"`
resolves to the string `"pong"`. -/
theorem decode_follows_content_type :
    (∀ r : HttpResponse,
      (ctIsJson r.contentType = true → decodeBody r = r.jsonOf) ∧
      (ctIsJson r.contentType = false → decodeBody r = .text r.textOf)) ∧
    ctIsJson (some "text/plain") = false ∧
    (apiRequest pongTransport).1.calls = 1 ∧
    (apiRequest pongTransport).2 = .success (.text "pong") := by
  refine ⟨fun r => ⟨fun h => ?_, fun h => ?_⟩, by decide, by decide, by decide⟩ <;>
    simp [decodeBody, h]

/-- Witness for C9: the two decode branches evaluated at concrete
responses. -/
theorem decode_follows_content_type_witness :
    decodeBody { status := 200, contentType := some "text/plain"
                 jsonOf := .nullV, textOf := "pong" } = .text "pong" ∧
    decodeBody { status := 200, contentType := some "application/json; charset=utf-8"
                 jsonOf := .obj (some "hi") none, textOf := "raw" } = .obj (some "hi") none :=
  ⟨(decode_follows_content_type.1 _).2 (by decide),
   (decode_follows_content_type.1 _).1 (by decide)⟩

/-- Claim C4 (refuted by the code): the default `Content-Type` header
survives only when the caller supplies no `headers` object at all.  The
inner object does merge the default with `options.headers`, but the outer
`...options` spread follows the `headers:` entry of `config`, so any
caller-supplied `headers` object replaces the merged object wholesale:
with `headers: { "X-Custom": "1" }` the resulting config has no
`Content-Type` at all.  (A caller-supplied `Content-Type` does win, as the
last conjunct shows.) -/
theorem apiConfigHeaders_caller_headers_drop_default :
    apiConfigHeaders { headers := some [("X-Custom", "1")] } = [("X-Custom", "1")] ∧
    List.lookup "Content-Type"
      (apiConfigHeaders { headers := some [("X-Custom", "1")] }) = none ∧
    apiConfigHeaders { headers := none } = [("Content-Type", "application/json")] ∧
    List.lookup "Content-Type"
      (apiConfigHeaders { headers := some [("Content-Type", "text/xml")] }) =
      some "text/xml" :=
  ⟨rfl, by decide, rfl, by decide⟩

/-- Claim C2: for every endpoint whose every response carries a retryable
status, the orchestrator issues at most `maxRetries + 1` transport calls in
total, and the error it finally throws is the classification of the final
attempt's response. -/
theorem apiRequest_retryable_exhaustion (tr : Nat → FetchOutcome) (r : Nat → HttpResponse)
    (h : ∀ n, n ≤ RETRY_CONFIG.maxRetries →
      tr n = .resp (r n) ∧ (r n).ok = false ∧
      (r n).status ∈ RETRY_CONFIG.retryableStatuses) :
    (apiRequest tr).1.calls ≤ RETRY_CONFIG.maxRetries + 1 ∧
    (apiRequest tr).2 =
      .failure (categorizeAPIError (r RETRY_CONFIG.maxRetries).status
        (decodeBody (r RETRY_CONFIG.maxRetries))) := by
  have key : ∀ n, n ≤ RETRY_CONFIG.maxRetries →
      attemptOutcome tr n =
        .failure (categorizeAPIError (r n).status (decodeBody (r n))) := by
    intro n hn
    obtain ⟨h1, h2, _⟩ := h n hn
    simp [attemptOutcome, h1, h2]
  have sr : ∀ n a : Nat, n ≤ RETRY_CONFIG.maxRetries →
      shouldRetry (categorizeAPIError (r n).status (decodeBody (r n))) a = true :=
    fun n a hn => shouldRetry_categorize_retryable _ _ _ (h n hn).2.2
  have k0 := key 0 (by decide)
  have k1 := key 1 (by decide)
  have k2 := key 2 (by decide)
  have k3 := key 3 (by decide)
  have s0 := sr 0 0 (by decide)
  have s1 := sr 1 1 (by decide)
  have s2 := sr 2 2 (by decide)
  have s3 := sr 3 3 (by decide)
  have un : apiRequest tr =
      apiLoop tr (0 + 1 + 1 + 1 + 1) 0 none { calls := 0, delays := [], consults := [] } := rfl
  rw [un]
  simp only [apiLoop_step, apiLoop_zero, k0, k1, k2, k3, s0, s1, s2, s3, if_true]
  simp [RETRY_CONFIG]

/-- Witness for C2: the persistently-503 endpoint makes 4 calls and throws
the classification of the last 503 response. -/
theorem apiRequest_retryable_exhaustion_witness :
    (apiRequest always503).1.calls ≤ RETRY_CONFIG.maxRetries + 1 ∧
    (apiRequest always503).2 =
      .failure (categorizeAPIError 503
        (decodeBody { status := 503, contentType := some "application/json"
                      jsonOf := .obj none none, textOf := "" })) :=
  apiRequest_retryable_exhaustion always503
    (fun _ => { status := 503, contentType := some "application/json"
                jsonOf := .obj none none, textOf := "" })
    (fun n hn => ⟨rfl, rfl, by show (503 : Nat) ∈ RETRY_CONFIG.retryableStatuses; decide⟩)

/-- Claim C3 is false on the code: against an endpoint that always answers
503 the orchestrator does consult `shouldRetry` at attempt index
`maxRetries` (a consultation with attempt index 3 appears in the trace)
and does await a backoff delay after that final failed attempt (four
delays are awaited for four attempts). -/
theorem final_attempt_consulted_and_delayed :
    ¬ ((((apiRequest always503).1.consults.filter
          (fun p => p.2 == RETRY_CONFIG.maxRetries)) = []) ∧
       (apiRequest always503).1.delays.length ≤ RETRY_CONFIG.maxRetries) := by
  decide

/-- Claim C3 (amended): when a failure occurs at attempt index
`maxRetries` — the loop state with gas for exactly one more iteration —
the orchestrator makes that one transport call only and surfaces that very
error, but it still consults `shouldRetry(error, maxRetries)` once, and
when the answer is true it additionally awaits one further backoff delay
`delayFor maxRetries` before surfacing the error; only a non-retryable
final error is surfaced with no delay. -/
theorem apiLoop_final_attempt (tr : Nat → FetchOutcome) (le : Option JsError)
    (acc : Trace) (e : JsError)
    (h : attemptOutcome tr RETRY_CONFIG.maxRetries = .failure e) :
    apiLoop tr 1 RETRY_CONFIG.maxRetries le acc =
      ({ acc with
          calls := acc.calls + 1
          consults := acc.consults ++ [(e, RETRY_CONFIG.maxRetries)]
          delays := acc.delays ++
            (if shouldRetry e RETRY_CONFIG.maxRetries then
              [delayFor RETRY_CONFIG.maxRetries] else []) },
        .failure e) := by
  conv_lhs => rw [show (1 : Nat) = 0 + 1 from rfl]
  rw [apiLoop_step, h]
  by_cases hsr : shouldRetry e RETRY_CONFIG.maxRetries <;>
    simp [hsr, apiLoop_zero, delayFor]

/-- Witness for the amended C3: the final 503 attempt of the
persistently-503 run, started from the trace accumulated over the first
three attempts. -/
theorem apiLoop_final_attempt_witness :
    apiLoop always503 1 RETRY_CONFIG.maxRetries
        (some (.serverError "HTTP 503 error" 503))
        { calls := 3, delays := [1000, 2000, 4000]
          consults := [(.serverError "HTTP 503 error" 503, 0),
            (.serverError "HTTP 503 error" 503, 1),
            (.serverError "HTTP 503 error" 503, 2)] } =
      ({ calls := 3 + 1
         delays := [1000, 2000, 4000] ++
           (if shouldRetry (.serverError "HTTP 503 error" 503) RETRY_CONFIG.maxRetries then
             [delayFor RETRY_CONFIG.maxRetries] else [])
         consults := [(.serverError "HTTP 503 error" 503, 0),
            (.serverError "HTTP 503 error" 503, 1),
            (.serverError "HTTP 503 error" 503, 2)] ++
            [(.serverError "HTTP 503 error" 503, RETRY_CONFIG.maxRetries)] },
       .failure (.serverError "HTTP 503 error" 503)) :=
  apiLoop_final_attempt always503 (some (.serverError "HTTP 503 error" 503)) _ _ (by decide)

end BlueChain

